import Mathlib

/-!
# Shallow embedding of the city-import ETL pipeline

This file embeds the row-normalisation, region classification, filtering,
batch loading and resume logic of the repository's import scripts
(`scripts/batch-import-cities.py`, `scripts/continue-import.py`,
`scripts/massive-import.py`, `scripts/import-cities.py`) and proves the
specification's claims about them.

Raw spreadsheet cells are modelled by `Cell`: a cell is either absent
(pandas `NaN`, for which `pd.notna` is false), a string, or a numeric value
(modelled as a rational, standing for the Python float the Excel reader
produces).  Python `float` parsing of decimal literals is modelled by
`parseRat`; `int(float x)` truncation toward zero by `truncRat`.
-/

/-- A raw spreadsheet cell as seen through pandas: absent (`NaN`),
a string, or a numeric value. -/
inductive Cell where
  | absent : Cell
  | str (s : String) : Cell
  | num (q : ℚ) : Cell
deriving DecidableEq

/-- One source row restricted to the columns the import scripts read:
`Name`, `Country name EN`, `Population`, `Coordinates`. -/
structure RawRecord where
  name : Cell
  country : Cell
  population : Cell
  coordinates : Cell
deriving DecidableEq

/-- A staged city tuple, as appended to `cities_data` and inserted into the
`cities` table (`name, country, region, population, latitude, longitude,
timezone, is_capital`). -/
structure CityRow where
  name : String
  country : String
  region : String
  population : Option Int
  latitude : Option ℚ
  longitude : Option ℚ
  timezone : Option String
  is_capital : Bool
deriving DecidableEq

/-- Whitespace test used by `strip`, covering the characters Python's
`str.strip()` removes that can occur in spreadsheet cells. -/
def isSpaceChar (c : Char) : Bool :=
  c = ' ' || c = '\t' || c = '\n' || c = '\r'

/-- Trim leading and trailing whitespace from a character list. -/
def trimChars (l : List Char) : List Char :=
  ((l.dropWhile isSpaceChar).reverse.dropWhile isSpaceChar).reverse

/-- Python `str.strip()` on the strings the scripts handle. -/
def strip (s : String) : String :=
  String.mk (trimChars s.toList)

/-- Numeric value of a digit list (most significant first). -/
def digitsVal (l : List Char) : Nat :=
  l.foldl (fun n c => n * 10 + (c.toNat - '0'.toNat)) 0

/-- The unsigned part of Python `float` parsing on plain decimal literals:
optional integer part, optional `.`, optional fractional part, at least one
digit overall.  (Exponent and special forms never occur in the coordinate
and population cells this pipeline parses.) -/
def parseUnsigned (l : List Char) : Option ℚ :=
  let ip := l.takeWhile (fun c => c ≠ '.')
  let rest := l.dropWhile (fun c => c ≠ '.')
  match rest with
  | [] =>
      if !ip.isEmpty && ip.all Char.isDigit then some ((digitsVal ip : ℚ)) else none
  | _ :: frac =>
      if !(ip.isEmpty && frac.isEmpty) && ip.all Char.isDigit && frac.all Char.isDigit then
        some (mkRat (digitsVal ip * 10 ^ frac.length + digitsVal frac) (10 ^ frac.length))
      else none

/-- Python `float(s)` on a string: strips surrounding whitespace, then an
optional sign followed by a decimal literal; `none` models the raised
`ValueError`. -/
def parseRat (s : String) : Option ℚ :=
  match trimChars s.toList with
  | '-' :: rest => (parseUnsigned rest).map (fun q => -q)
  | '+' :: rest => parseUnsigned rest
  | l => parseUnsigned l

/-- Python `int(q)` on a float value: truncation toward zero. -/
def truncRat (q : ℚ) : Int :=
  Int.tdiv q.num (q.den : Int)

/-- Python `str(cell)` for a cell that passed `pd.notna`.  The numeric
rendering stands for Python's float formatting; its exact text is never
inspected beyond emptiness and comma search, and it contains no comma. -/
def cellStr : Cell → String
  | Cell.absent => "nan"
  | Cell.str s => s
  | Cell.num q => toString q.num ++ (if q.den = 1 then "" else "/" ++ toString q.den)

/-- The expression `str(row[col]).strip() if pd.notna(row[col]) else None` — the shared
extraction of the `Name` and `Country name EN` cells. -/
def strField : Cell → Option String
  | Cell.absent => none
  | c => some (strip (cellStr c))

/-- Python `float(cell)` on a cell that passed `pd.notna`: numeric cells
pass through, strings are parsed, failure models the raised exception. -/
def floatOfCell : Cell → Option ℚ
  | Cell.absent => none
  | Cell.str s => parseRat s
  | Cell.num q => some q

/-- Split a string at its first comma: Python `s.split(",", 1)` on a string
known to contain a comma. -/
def splitComma1 (s : String) : String × String :=
  let l := s.toList
  (String.mk (l.takeWhile (fun c => c ≠ ',')),
   String.mk ((l.dropWhile (fun c => c ≠ ',')).drop 1))

/-- Whether the cell's string form contains a comma (`"," in coords`). -/
def hasComma (s : String) : Bool :=
  s.toList.contains ','

/-! ## Region classification

The three scripts each hardcode their own country → region dictionary.
Python dict literals with a duplicated key keep the last binding; the only
duplicate below (`South Korea` in the batch table) binds the same value
both times, so a first-match association-list lookup is extensionally the
dict lookup. -/

/-- First-match lookup in an association list, modelling
`region_mapping.get(country, ...)`. -/
def lookupFirst : List (String × String) → String → Option String
  | [], _ => none
  | (k, v) :: rest, c => if c = k then some v else lookupFirst rest c

/-- The dictionary of `map_regions` in `scripts/batch-import-cities.py`
(lines 33-74), in source order. -/
def batchRegionTable : List (String × String) :=
  [("Germany", "Europe"), ("France", "Europe"), ("Italy", "Europe"), ("Spain", "Europe"),
   ("United Kingdom", "Europe"), ("Poland", "Europe"), ("Romania", "Europe"), ("Netherlands", "Europe"),
   ("Belgium", "Europe"), ("Greece", "Europe"), ("Portugal", "Europe"), ("Czech Republic", "Europe"),
   ("Hungary", "Europe"), ("Sweden", "Europe"), ("Austria", "Europe"), ("Bulgaria", "Europe"),
   ("Croatia", "Europe"), ("Denmark", "Europe"), ("Finland", "Europe"), ("Slovakia", "Europe"),
   ("Norway", "Europe"), ("Ireland", "Europe"), ("Lithuania", "Europe"), ("Slovenia", "Europe"),
   ("Latvia", "Europe"), ("Estonia", "Europe"), ("Malta", "Europe"), ("Luxembourg", "Europe"),
   ("Switzerland", "Europe"), ("Iceland", "Europe"), ("Albania", "Europe"), ("Serbia", "Europe"),
   ("United States", "North America"), ("Canada", "North America"), ("Mexico", "North America"),
   ("Guatemala", "North America"), ("Cuba", "North America"), ("Haiti", "North America"),
   ("Dominican Republic", "North America"), ("Honduras", "North America"), ("Nicaragua", "North America"),
   ("Costa Rica", "North America"), ("Panama", "North America"), ("Jamaica", "North America"),
   ("China", "Asia"), ("India", "Asia"), ("Japan", "Asia"), ("South Korea", "Asia"),
   ("Indonesia", "Asia"), ("Pakistan", "Asia"), ("Bangladesh", "Asia"), ("Philippines", "Asia"),
   ("Vietnam", "Asia"), ("Turkey", "Asia"), ("Iran", "Asia"), ("Iraq", "Asia"),
   ("Thailand", "Asia"), ("Myanmar", "Asia"), ("South Korea", "Asia"), ("North Korea", "Asia"),
   ("Afghanistan", "Asia"), ("Saudi Arabia", "Asia"), ("Malaysia", "Asia"), ("Syria", "Asia"),
   ("Sri Lanka", "Asia"), ("Cambodia", "Asia"), ("Jordan", "Asia"), ("Azerbaijan", "Asia"),
   ("Nigeria", "Africa"), ("Ethiopia", "Africa"), ("Egypt", "Africa"), ("South Africa", "Africa"),
   ("Kenya", "Africa"), ("Tanzania", "Africa"), ("Algeria", "Africa"), ("Morocco", "Africa"),
   ("Angola", "Africa"), ("Ghana", "Africa"), ("Mozambique", "Africa"), ("Madagascar", "Africa"),
   ("Cameroon", "Africa"), ("Ivory Coast", "Africa"), ("Niger", "Africa"), ("Burkina Faso", "Africa"),
   ("Mali", "Africa"), ("Malawi", "Africa"), ("Zambia", "Africa"), ("Senegal", "Africa"),
   ("Brazil", "South America"), ("Argentina", "South America"), ("Colombia", "South America"),
   ("Peru", "South America"), ("Venezuela", "South America"), ("Chile", "South America"),
   ("Ecuador", "South America"), ("Bolivia", "South America"), ("Paraguay", "South America"),
   ("Uruguay", "South America"), ("Guyana", "South America"), ("Suriname", "South America"),
   ("Australia", "Oceania"), ("Papua New Guinea", "Oceania"), ("New Zealand", "Oceania"),
   ("Fiji", "Oceania"), ("Solomon Islands", "Oceania"), ("Vanuatu", "Oceania")]

/-- Function `map_regions` of `scripts/batch-import-cities.py`:
`region_mapping.get(country, "Other")`. -/
def mapRegions (country : String) : String :=
  (lookupFirst batchRegionTable country).getD "Other"

/-- The dictionary of `map_regions` in `scripts/continue-import.py`
(lines 23-33). -/
def continueRegionTable : List (String × String) :=
  [("United States", "North America"), ("Canada", "North America"), ("Mexico", "North America"),
   ("Germany", "Europe"), ("France", "Europe"), ("Italy", "Europe"), ("Spain", "Europe"),
   ("United Kingdom", "Europe"), ("Poland", "Europe"), ("Romania", "Europe"),
   ("China", "Asia"), ("India", "Asia"), ("Japan", "Asia"), ("Philippines", "Asia"),
   ("Russian Federation", "Europe"), ("Ukraine", "Europe"),
   ("Brazil", "South America"), ("Argentina", "South America"), ("Colombia", "South America"),
   ("Nigeria", "Africa"), ("Egypt", "Africa"), ("South Africa", "Africa"),
   ("Australia", "Oceania"), ("New Zealand", "Oceania")]

/-- Function `map_regions` of `scripts/continue-import.py`. -/
def mapRegionsContinue (country : String) : String :=
  (lookupFirst continueRegionTable country).getD "Other"

/-- The dictionary of `map_regions` in `scripts/massive-import.py`
(lines 23-31). -/
def massiveRegionTable : List (String × String) :=
  [("United States", "North America"), ("Canada", "North America"), ("Mexico", "North America"),
   ("Germany", "Europe"), ("France", "Europe"), ("Italy", "Europe"), ("Spain", "Europe"),
   ("United Kingdom", "Europe"), ("Poland", "Europe"), ("Romania", "Europe"), ("Netherlands", "Europe"),
   ("China", "Asia"), ("India", "Asia"), ("Japan", "Asia"), ("Philippines", "Asia"), ("Indonesia", "Asia"),
   ("Brazil", "South America"), ("Argentina", "South America"), ("Colombia", "South America"),
   ("Nigeria", "Africa"), ("Ethiopia", "Africa"), ("Egypt", "Africa"), ("South Africa", "Africa"),
   ("Australia", "Oceania"), ("New Zealand", "Oceania")]

/-- Function `map_regions` of `scripts/massive-import.py`. -/
def mapRegionsMassive (country : String) : String :=
  (lookupFirst massiveRegionTable country).getD "Other"

/-! ## Field normalisation and row filtering -/

/-- Population parsing in `scripts/batch-import-cities.py` (lines 101-108):
`int(float(row["Population"]))` behind a `pd.notna` guard, any
`ValueError`/`TypeError` giving `None`. -/
def popBatch (c : Cell) : Option Int :=
  match c with
  | Cell.absent => none
  | c => (floatOfCell c).map truncRat

/-- The population filter of `scripts/batch-import-cities.py` (line 134):
`if population and population < 1000: skip`.  Python truthiness makes
`None` and `0` falsy, so only a nonzero parsed value below 1000 rejects. -/
def popReject (p : Option Int) : Bool :=
  match p with
  | none => false
  | some v => !(v = 0) && v < 1000

/-- Coordinate parsing in `scripts/batch-import-cities.py` (lines 110-126):
split the cell on the first comma and parse both sides; the exception
handler resets both latitude and longitude to `None`, so a failing side
clears the pair. -/
def parseCoordsBatch (c : Cell) : Option ℚ × Option ℚ :=
  match c with
  | Cell.absent => (none, none)
  | c =>
    let coords := strip (cellStr c)
    if hasComma coords then
      let p := splitComma1 coords
      match parseRat (strip p.1), parseRat (strip p.2) with
      | some a, some b => (some a, some b)
      | _, _ => (none, none)
    else (none, none)

/-- Coordinate parsing in `scripts/continue-import.py` (lines 76-86) and
`scripts/massive-import.py` (lines 83-92): the same split, but latitude is
assigned before longitude is parsed and the handler is `except: pass`, so
a longitude failure leaves the already-assigned latitude in place. -/
def parseCoordsSeq (c : Cell) : Option ℚ × Option ℚ :=
  match c with
  | Cell.absent => (none, none)
  | c =>
    let coords := strip (cellStr c)
    if hasComma coords then
      let p := splitComma1 coords
      match parseRat (strip p.1) with
      | none => (none, none)
      | some a =>
        match parseRat (strip p.2) with
        | none => (some a, none)
        | some b => (some a, some b)
    else (none, none)

/-- The body of the row loop of `process_batch` in
`scripts/batch-import-cities.py` (lines 88-150): extract and trim name and
country, parse population and coordinates, skip rows with missing
essentials or a truthy population below 1000, classify the region, and
stage the city tuple; `none` is a skipped row. -/
def processRow (r : RawRecord) : Option CityRow :=
  match strField r.name, strField r.country with
  | some n, some co =>
      if n = "" ∨ co = "" then none
      else if popReject (popBatch r.population) then none
      else some { name := n, country := co, region := mapRegions co,
                  population := popBatch r.population,
                  latitude := (parseCoordsBatch r.coordinates).1,
                  longitude := (parseCoordsBatch r.coordinates).2,
                  timezone := none, is_capital := false }
  | _, _ => none

/-- Population handling in `scripts/continue-import.py` (lines 67-74):
a parse failure is `except: pass` (population stays `None`, row kept), a
parsed value below 1000 is `continue` (row dropped).  The outer `none`
models the dropped row; `some p` keeps the row with population `p`. -/
def popContinue (c : Cell) : Option (Option Int) :=
  match c with
  | Cell.absent => some none
  | c =>
    match floatOfCell c with
    | none => some none
    | some q => if truncRat q < 1000 then none else some (some (truncRat q))

/-- The body of the row loop of `scripts/continue-import.py`
(lines 59-95). -/
def processRowContinue (r : RawRecord) : Option CityRow :=
  match strField r.name, strField r.country with
  | some n, some co =>
      if n = "" ∨ co = "" then none
      else
        match popContinue r.population with
        | none => none
        | some pop =>
            some { name := n, country := co, region := mapRegionsContinue co,
                   population := pop,
                   latitude := (parseCoordsSeq r.coordinates).1,
                   longitude := (parseCoordsSeq r.coordinates).2,
                   timezone := none, is_capital := false }
  | _, _ => none

/-- Population handling in `scripts/massive-import.py` (lines 72-81): a
present cell that fails to parse is `except: continue` (row dropped), a
parsed value below 1000 is `continue` (row dropped); only an absent cell
keeps the row with population `None`. -/
def popMassive (c : Cell) : Option (Option Int) :=
  match c with
  | Cell.absent => some none
  | c =>
    match floatOfCell c with
    | none => none
    | some q => if 1000 ≤ truncRat q then some (some (truncRat q)) else none

/-- The body of the row loop of `scripts/massive-import.py`
(lines 64-99). -/
def processRowMassive (r : RawRecord) : Option CityRow :=
  match strField r.name, strField r.country with
  | some n, some co =>
      if n = "" ∨ co = "" then none
      else
        match popMassive r.population with
        | none => none
        | some pop =>
            some { name := n, country := co, region := mapRegionsMassive co,
                   population := pop,
                   latitude := (parseCoordsSeq r.coordinates).1,
                   longitude := (parseCoordsSeq r.coordinates).2,
                   timezone := none, is_capital := false }
  | _, _ => none

/-! ## The sink and the batch loader

The only schema for the `cities` table in the repository is
`create_cities_table` in `scripts/import-cities.py` (lines 49-71): a
`SERIAL PRIMARY KEY` and four plain (non-unique) indexes — no content
uniqueness constraint.  PostgreSQL's `INSERT ... ON CONFLICT DO NOTHING`
skips a row only when it conflicts with some unique constraint; the serial
`id` is assigned fresh on every insert, so under this schema no insert is
ever skipped and the write is a plain append. -/

/-- The stored `cities` table contents (system-assigned `id`s and
timestamps elided; they never collide by construction). -/
abbrev Store := List CityRow

/-- The call `cursor.executemany(insert_sql, cities_data)` against the
`create_cities_table` schema: every tuple is inserted. -/
def insertMany (store : Store) (data : List CityRow) : Store :=
  store ++ data

/-- Function `process_batch` of `scripts/batch-import-cities.py` (lines 78-169):
stage the surviving rows of the chunk, bulk-insert them, and return the
`(processed, skipped)` counters; the updated store is returned alongside.
When `cities_data` is empty the insert is not issued, which coincides with
appending nothing. -/
def processBatch (store : Store) (chunk : List RawRecord) : Store × Nat × Nat :=
  let data := chunk.filterMap processRow
  (insertMany store data, data.length, chunk.length - data.length)

/-- Chunk selection `df.iloc[i:i+batch_size]`. -/
def sliceRows (rows : List RawRecord) (i bs : Nat) : List RawRecord :=
  (rows.drop i).take bs

/-- The driver loop `for i in range(start, stop, batch_size):
chunk = df.iloc[i:i+batch_size]; process_batch(...)` shared by the import
scripts (`scripts/continue-import.py` lines 48-56, `scripts/massive-import.py`
lines 56-114, `scripts/batch-import-cities.py` lines 201-214), with the
per-row body of `process_batch`. -/
def runFrom (rows : List RawRecord) (bs : Nat) (stop : Nat) (i : Nat) (store : Store) : Store :=
  if h : 0 < bs ∧ i < stop then
    runFrom rows bs stop (i + bs) (processBatch store (sliceRows rows i bs)).1
  else store
termination_by stop - i
decreasing_by omega

/-! ## Startup deletes -/

/-- Whether a stored row satisfies the SQL predicate `population > 0`
(`NULL > 0` is unknown, hence not satisfied). -/
def popPositive (r : CityRow) : Bool :=
  match r.population with
  | some p => 0 < p
  | none => false

/-- Statement `DELETE FROM cities WHERE population > 0` executed by `main` of
`scripts/batch-import-cities.py` (lines 184-188) before any batch. -/
def clearBatchImport (store : Store) : Store :=
  store.filter (fun r => !popPositive r)

/-- Statement `DELETE FROM cities` executed by `import_cities_data` of
`scripts/import-cities.py` (lines 104-110) before its insert. -/
def clearImportCities (_store : Store) : Store :=
  []

/-! ## Concrete inputs used by the theorems below -/

/-- A fully valid source row (name, country, population 1500, in-range
coordinates). -/
def springRaw : RawRecord :=
  ⟨Cell.str "Springfield", Cell.str "United States", Cell.str "1500", Cell.str "39.78,-89.65"⟩

/-- A row whose `Coordinates` cell has a parseable left side and an
unparseable right side. -/
def oneSidedRaw : RawRecord :=
  ⟨Cell.str "Riga", Cell.str "Latvia", Cell.absent, Cell.str "1.5,abc"⟩

/-- A row with valid name and country whose `Population` cell is present
but unparseable. -/
def popFailRaw : RawRecord :=
  ⟨Cell.str "Testville", Cell.str "Utopia", Cell.str "12a", Cell.absent⟩

/-- A valid-name row used as a witness input with unparseable population. -/
def popFailW : RawRecord :=
  ⟨Cell.str "A", Cell.str "B", Cell.str "x2", Cell.absent⟩

/-- A row whose coordinate cell parses to values outside the valid
latitude/longitude ranges. -/
def outRangeRaw : RawRecord :=
  ⟨Cell.str "Nowhere", Cell.str "Xanadu", Cell.absent, Cell.str "100,200"⟩

/-- Witness row for the coordinate pass-through theorem. -/
def coordsW : RawRecord :=
  ⟨Cell.str "P", Cell.str "Q", Cell.absent, Cell.str "1,2"⟩

/-- The staged row the pipeline produces from `coordsW`. -/
def coordsWRow : CityRow :=
  ⟨"P", "Q", "Other", none, some 1, some 2, none, false⟩

/-- A row whose `Name` cell is absent. -/
def noNameRaw : RawRecord :=
  ⟨Cell.absent, Cell.str "France", Cell.str "1500", Cell.absent⟩

/-- A one-row source used by the resume witness. -/
def demoRows : List RawRecord :=
  [⟨Cell.str "P", Cell.str "Q", Cell.absent, Cell.absent⟩]

/-! ## Helper lemmas -/

theorem lookupFirst_mem_values (l : List (String × String)) (c v : String)
    (h : lookupFirst l c = some v) : v ∈ l.map Prod.snd := by
  induction l with
  | nil => simp [lookupFirst] at h
  | cons p rest ih =>
      obtain ⟨k, w⟩ := p
      simp only [lookupFirst] at h
      by_cases hk : c = k
      · rw [if_pos hk] at h
        cases h
        simp
      · rw [if_neg hk] at h
        simpa using Or.inr (ih h)

theorem lookupFirst_eq_none (l : List (String × String)) (c : String)
    (h : c ∉ l.map Prod.fst) : lookupFirst l c = none := by
  induction l with
  | nil => rfl
  | cons p rest ih =>
      obtain ⟨k, w⟩ := p
      simp only [List.map_cons, List.mem_cons] at h
      push_neg at h
      simp only [lookupFirst, if_neg h.1]
      exact ih h.2

/-- The seven labels a classifier output can take. -/
theorem batch_values_mem (v : String) (h : v ∈ batchRegionTable.map Prod.snd) :
    v ∈ ["North America", "Europe", "Asia", "Africa", "South America", "Oceania", "Other"] := by
  have hall : (batchRegionTable.map Prod.snd).all
      (fun x => decide
        (x ∈ ["North America", "Europe", "Asia", "Africa", "South America", "Oceania", "Other"]))
      = true := by decide
  exact of_decide_eq_true (List.all_eq_true.mp hall v h)

/-! ## Claim theorems -/

/-- C8: `map_regions` is a total, deterministic function of the country
string: equal inputs give equal regions, a country absent from the table
maps to exactly `"Other"`, and every output is one of the seven fixed
labels — never blank. -/
theorem mapRegions_total_default (c : String) :
    mapRegions c = mapRegions c ∧
    (c ∉ batchRegionTable.map Prod.fst → mapRegions c = "Other") ∧
    mapRegions c ∈ ["North America", "Europe", "Asia", "Africa", "South America", "Oceania", "Other"] ∧
    mapRegions c ≠ "" := by
  have hmem : mapRegions c
      ∈ ["North America", "Europe", "Asia", "Africa", "South America", "Oceania", "Other"] := by
    unfold mapRegions
    cases h : lookupFirst batchRegionTable c with
    | none => simp
    | some v =>
        simpa using batch_values_mem v (lookupFirst_mem_values _ _ _ h)
  refine ⟨rfl, ?_, hmem, ?_⟩
  · intro h
    unfold mapRegions
    rw [lookupFirst_eq_none _ _ h]
    rfl
  · have : ∀ x ∈ ["North America", "Europe", "Asia", "Africa", "South America", "Oceania", "Other"],
        x ≠ ("" : String) := by decide
    exact this _ hmem

/-- C8 witness: an unmapped country returns `"Other"`; a mapped one
returns one of the seven labels. -/
theorem mapRegions_total_default_witness :
    "Atlantis" ∉ batchRegionTable.map Prod.fst ∧ mapRegions "Atlantis" = "Other" :=
  ⟨by decide, (mapRegions_total_default "Atlantis").2.1 (by decide)⟩

/-- C9: a row whose `Name` or `Country name EN` cell is absent, or blank
after trimming, yields no staged record — `process_batch` skips it. -/
theorem required_field_drop (r : RawRecord)
    (h : strField r.name = none ∨ strField r.name = some "" ∨
         strField r.country = none ∨ strField r.country = some "") :
    processRow r = none := by
  rcases h with h | h | h | h
  · cases hc : strField r.country <;> simp [processRow, h, hc]
  · cases hc : strField r.country <;> simp [processRow, h, hc]
  · cases hn : strField r.name <;> simp [processRow, h, hn]
  · cases hn : strField r.name <;> simp [processRow, h, hn]

/-- C9 witness: the row with an absent `Name` cell is dropped. -/
theorem required_field_drop_witness :
    strField noNameRaw.name = none ∧ processRow noNameRaw = none :=
  ⟨by decide, required_field_drop noNameRaw (Or.inl (by decide))⟩

/-- C5 counterexample: population `0` is present and below 1000, yet the
filter `if population and population < 1000` does not reject it, because
`0` is falsy in Python. -/
theorem popReject_zero_accepted :
    (some (0 : Int)).isSome = true ∧ (0 : Int) < 1000 ∧ popReject (some 0) = false := by
  decide

/-- C5 (amended): the filter rejects exactly the records whose population
is present, nonzero and below 1000; in particular 999 is rejected, 1000
and 0 are accepted, and an absent population is accepted. -/
theorem popReject_iff (p : Option Int) :
    (popReject p = true ↔ ∃ v, p = some v ∧ v ≠ 0 ∧ v < 1000) ∧
    popReject (some 999) = true ∧ popReject (some 1000) = false ∧
    popReject (some 0) = false ∧ popReject none = false := by
  refine ⟨?_, by decide, by decide, by decide, by decide⟩
  cases p with
  | none => simp [popReject]
  | some v =>
      simp only [popReject, Bool.and_eq_true, bne_iff_ne, ne_eq, decide_eq_true_eq,
        Bool.not_eq_true', decide_eq_false_iff_not]
      constructor
      · rintro ⟨h1, h2⟩
        exact ⟨v, rfl, h1, h2⟩
      · rintro ⟨w, hw, h1, h2⟩
        cases hw
        exact ⟨h1, h2⟩

/-- C10: `batch-import-cities.py`'s startup `DELETE FROM cities WHERE
population > 0` keeps exactly the stored rows without a positive
population, and `import-cities.py`'s `DELETE FROM cities` keeps nothing. -/
theorem startup_clears (store : Store) (r : CityRow) :
    (r ∈ clearBatchImport store ↔ r ∈ store ∧ ∀ p, r.population = some p → p ≤ 0) ∧
    r ∉ clearImportCities store := by
  constructor
  · have hiff : (!popPositive r) = true ↔ ∀ p, r.population = some p → p ≤ 0 := by
      cases hp : r.population with
      | none => simp [popPositive, hp]
      | some p => simp [popPositive, hp, Int.not_lt]
    simp [clearBatchImport, List.mem_filter, hiff]
  · simp [clearImportCities]

/-- C3 evaluation at the failing input: in `continue-import.py` and
`massive-import.py` the cell `"1.5,abc"` yields latitude `1.5` with
longitude absent — one side of the pair — and the full row loop emits that
one-sided record; `batch-import-cities.py`'s handler resets both. -/
theorem coords_one_sided_pair :
    parseCoordsSeq (Cell.str "1.5,abc") = (some (mkRat 3 2), none) ∧
    parseCoordsBatch (Cell.str "1.5,abc") = (none, none) ∧
    processRowContinue oneSidedRaw =
      some { name := "Riga", country := "Latvia", region := "Other", population := none,
             latitude := some (mkRat 3 2), longitude := none, timezone := none,
             is_capital := false } := by
  decide

/-- C2 evaluation at the failing input: against the only schema in the
repository (`create_cities_table`, no content uniqueness constraint), the
same one-row batch loaded twice reports 1 inserted row both times and
leaves two stored rows. -/
theorem load_twice_duplicates :
    (processBatch [] [springRaw]).2.1 = 1 ∧
    ((processBatch [] [springRaw]).1).length = 1 ∧
    (processBatch (processBatch [] [springRaw]).1 [springRaw]).2.1 = 1 ∧
    ((processBatch (processBatch [] [springRaw]).1 [springRaw]).1).length = 2 := by
  decide

/-- C6: for a non-empty batch, the `(processed, _)` counter returned by
`process_batch` equals the number of rows the bulk insert actually added
to the store, and the whole staged batch lands in the store (under the
repository's schema no row is ever skipped by a uniqueness conflict). -/
theorem processBatch_reports_inserted (store : Store) (chunk : List RawRecord)
    (hne : chunk ≠ []) :
    ((processBatch store chunk).1).length = store.length + (processBatch store chunk).2.1 ∧
    (processBatch store chunk).1 = store ++ chunk.filterMap processRow := by
  refine ⟨?_, rfl⟩
  simp [processBatch, insertMany]

/-- C6 witness at a concrete one-row batch. -/
theorem processBatch_reports_inserted_witness :
    ([springRaw] ≠ ([] : List RawRecord)) ∧
    (((processBatch [] [springRaw]).1).length = ([] : Store).length + (processBatch [] [springRaw]).2.1 ∧
     (processBatch [] [springRaw]).1 = ([] : Store) ++ [springRaw].filterMap processRow) :=
  ⟨by decide, processBatch_reports_inserted [] [springRaw] (by decide)⟩

/-- C7 counterexample: the cell `"100,200"` parses and is stored as
latitude `100` and longitude `200`, outside `[-90, 90]` and `[-180, 180]`:
the normalizer applies no range check. -/
theorem coords_out_of_range :
    processRow outRangeRaw =
      some { name := "Nowhere", country := "Xanadu", region := "Other", population := none,
             latitude := some 100, longitude := some 200, timezone := none,
             is_capital := false } ∧
    (90 : ℚ) < 100 ∧ (180 : ℚ) < 200 := by
  decide

/-- C7 (amended): the normalizer passes parsed coordinates through
unchanged — every staged record carries exactly the pair the coordinate
parse produced, with no range restriction applied. -/
theorem coords_passthrough (r : RawRecord) (rec : CityRow)
    (h : processRow r = some rec) :
    rec.latitude = (parseCoordsBatch r.coordinates).1 ∧
    rec.longitude = (parseCoordsBatch r.coordinates).2 := by
  cases hn : strField r.name with
  | none => simp [processRow, hn] at h
  | some n =>
    cases hc : strField r.country with
    | none => simp [processRow, hn, hc] at h
    | some co =>
        simp only [processRow, hn, hc] at h
        split at h
        · exact absurd h (by simp)
        · split at h
          · exact absurd h (by simp)
          · cases h
            exact ⟨rfl, rfl⟩

/-- C7 witness at a concrete in-range row. -/
theorem coords_passthrough_witness :
    processRow coordsW = some coordsWRow ∧
    (coordsWRow.latitude = (parseCoordsBatch coordsW.coordinates).1 ∧
     coordsWRow.longitude = (parseCoordsBatch coordsW.coordinates).2) :=
  ⟨by decide, coords_passthrough coordsW coordsWRow (by decide)⟩

/-- C4 counterexample: `massive-import.py` drops a row with valid name and
country whose `Population` cell is present but unparseable (`except:
continue`), instead of emitting it with population absent. -/
theorem massive_drops_unparseable_population :
    popFailRaw.population ≠ Cell.absent ∧
    floatOfCell popFailRaw.population = none ∧
    strField popFailRaw.name = some "Testville" ∧
    strField popFailRaw.country = some "Utopia" ∧
    processRowMassive popFailRaw = none := by
  decide

/-- C4 (amended): in `batch-import-cities.py` and `continue-import.py` a
valid-name row whose population fails to parse is still emitted with
population absent, and whenever either of those two normalizers emits a
row whose population cell parsed to `q`, the stored value is `q` truncated
toward zero; `massive-import.py` instead drops rows with an unparseable
present population cell. -/
theorem population_parse_failure_kept (r : RawRecord) (n co : String)
    (hn : strField r.name = some n) (hn2 : n ≠ "")
    (hc : strField r.country = some co) (hc2 : co ≠ "") :
    (floatOfCell r.population = none →
       (∃ rec, processRow r = some rec ∧ rec.population = none) ∧
       (∃ rec, processRowContinue r = some rec ∧ rec.population = none)) ∧
    (∀ q rec, floatOfCell r.population = some q → processRow r = some rec →
       rec.population = some (truncRat q)) ∧
    (∀ q rec, floatOfCell r.population = some q → processRowContinue r = some rec →
       rec.population = some (truncRat q)) := by
  refine ⟨?_, ?_, ?_⟩
  · intro hfail
    have hpb : popBatch r.population = none := by
      cases hcell : r.population <;> simp_all [popBatch, floatOfCell]
    have hpc : popContinue r.population = some none := by
      cases hcell : r.population <;> simp_all [popContinue, floatOfCell]
    constructor
    · refine ⟨CityRow.mk n co (mapRegions co) none (parseCoordsBatch r.coordinates).1
        (parseCoordsBatch r.coordinates).2 none false, ?_, rfl⟩
      simp [processRow, hn, hc, hn2, hc2, hpb, popReject]
    · refine ⟨CityRow.mk n co (mapRegionsContinue co) none (parseCoordsSeq r.coordinates).1
        (parseCoordsSeq r.coordinates).2 none false, ?_, rfl⟩
      simp [processRowContinue, hn, hc, hn2, hc2, hpc]
  · intro q rec hq hrec
    have hpb : popBatch r.population = some (truncRat q) := by
      cases hcell : r.population <;> simp_all [popBatch, floatOfCell]
    simp only [processRow, hn, hc] at hrec
    split at hrec
    · exact absurd hrec (by simp)
    · split at hrec
      · exact absurd hrec (by simp)
      · cases hrec
        simpa using hpb
  · intro q rec hq hrec
    by_cases h1000 : truncRat q < 1000
    · have hpc : popContinue r.population = none := by
        cases hcell : r.population <;> simp_all [popContinue, floatOfCell]
      simp [processRowContinue, hn, hc, hpc] at hrec
    · have hpc : popContinue r.population = some (some (truncRat q)) := by
        cases hcell : r.population <;> simp_all [popContinue, floatOfCell]
      simp only [processRowContinue, hn, hc, hpc] at hrec
      split at hrec
      · exact absurd hrec (by simp)
      · cases hrec
        rfl

/-- C4 witness at a concrete row with unparseable population. -/
theorem population_parse_failure_kept_witness :
    strField popFailW.name = some "A" ∧ strField popFailW.country = some "B" ∧
    ((floatOfCell popFailW.population = none →
        (∃ rec, processRow popFailW = some rec ∧ rec.population = none) ∧
        (∃ rec, processRowContinue popFailW = some rec ∧ rec.population = none)) ∧
     (∀ q rec, floatOfCell popFailW.population = some q → processRow popFailW = some rec →
        rec.population = some (truncRat q)) ∧
     (∀ q rec, floatOfCell popFailW.population = some q → processRowContinue popFailW = some rec →
        rec.population = some (truncRat q))) :=
  ⟨by decide, by decide,
   population_parse_failure_kept popFailW "A" "B" (by decide) (by decide) (by decide) (by decide)⟩

/-- Splitting the driver loop at a batch-aligned offset: running
`n` batches from `i` and then continuing from `i + n*bs` is the same as
one uninterrupted run, because each chunk is `rows[j : j+bs]` for the same
sequence of offsets `j`. -/
theorem runFrom_split (rows : List RawRecord) (bs : Nat) (n : Nat) :
    ∀ (i stop : Nat) (store : Store), 0 < bs → i + n * bs ≤ stop →
      runFrom rows bs stop (i + n * bs) (runFrom rows bs (i + n * bs) i store) =
      runFrom rows bs stop i store := by
  induction n with
  | zero =>
      intro i stop store hbs hle
      simp only [Nat.zero_mul, Nat.add_zero]
      have h0 : runFrom rows bs i i store = store := by
        rw [runFrom, dif_neg (by omega)]
      rw [h0]
  | succ n ih =>
      intro i stop store hbs hle
      have hmid : i + (n + 1) * bs = (i + bs) + n * bs := by ring
      have hpos : 0 < (n + 1) * bs := Nat.mul_pos (Nat.succ_pos n) hbs
      have hi_lt_mid : i < i + (n + 1) * bs := by omega
      have hi_lt_stop : i < stop := by omega
      have hinner : runFrom rows bs (i + (n + 1) * bs) i store
          = runFrom rows bs (i + (n + 1) * bs) (i + bs)
              (processBatch store (sliceRows rows i bs)).1 := by
        rw [runFrom, dif_pos ⟨hbs, hi_lt_mid⟩]
      have houter : runFrom rows bs stop i store
          = runFrom rows bs stop (i + bs) (processBatch store (sliceRows rows i bs)).1 := by
        rw [runFrom, dif_pos ⟨hbs, hi_lt_stop⟩]
      rw [hinner, houter, hmid]
      exact ih (i + bs) stop _ hbs (by omega)

/-- C1: a run over `[0, 100)` that stops after committing the batches
covering `[0, 40)`, resumed by a second run over `[40, 100)` against the
same store, produces exactly the store of one uninterrupted run over
`[0, 100)` — provided the batch size divides 40 so that the committed
batches cover `[0, 40)` exactly. -/
theorem resume_run_equiv (rows : List RawRecord) (bs : Nat) (store : Store)
    (hbs : 0 < bs) (hal : 40 % bs = 0) :
    runFrom rows bs 100 40 (runFrom rows bs 40 0 store) = runFrom rows bs 100 0 store := by
  have hkey : 0 + (40 / bs) * bs = 40 := by
    have h := Nat.div_mul_cancel (Nat.dvd_of_mod_eq_zero hal)
    omega
  have h := runFrom_split rows bs (40 / bs) 0 100 store hbs (by omega)
  rw [hkey] at h
  exact h

/-- C1 witness with batch size 20 over a one-row source. -/
theorem resume_run_equiv_witness :
    0 < 20 ∧ 40 % 20 = 0 ∧
    runFrom demoRows 20 100 40 (runFrom demoRows 20 40 0 []) = runFrom demoRows 20 100 0 [] :=
  ⟨by decide, by decide, resume_run_equiv demoRows 20 [] (by decide) (by decide)⟩
